import Mathlib

/-!
Verification model of the YakoPlayer audio playback engine.

The repository ships only the foreign interface declaration
(`src/ffi/yako_player.h`, 24 operations); the engine behind it is not in
the source tree.  Every behavioural definition below is therefore modelled
from the specification (spec.md), keeping the header's operation names.
Machine integers are modelled as `Nat`/`Int`; the `float` volume is
modelled as `ℚ` so that the clamping contract is exact; byte buffers are
`List Nat` (one entry per byte).
-/

/-- Modelled from the spec: the transport state machine of the Playback
Engine has states Stopped (initial), Playing, Paused (spec 4.4). -/
inductive TransportState where
  | Stopped
  | Playing
  | Paused
deriving DecidableEq

/-- Modelled from the spec: the error taxonomy of section 7 (`DecodeStall`
is recoverable and never surfaced, so it is not a member). -/
inductive YakoError where
  | InvalidHandle
  | FileNotFound
  | UnsupportedFormat
  | CorruptHeader
  | IoFailure
  | NoFileOpen
  | NotPlaying
  | OutputDeviceUnavailable
  | SeekOutOfRange
  | SeekUnsupported
deriving DecidableEq

/-- Modelled from the spec: specific negative return values map 1:1 to the
taxonomy in section 7; `0` means success (spec section 6). -/
def errCode : YakoError → Int
  | .InvalidHandle => -1
  | .FileNotFound => -2
  | .UnsupportedFormat => -3
  | .CorruptHeader => -4
  | .IoFailure => -5
  | .NoFileOpen => -6
  | .NotPlaying => -7
  | .OutputDeviceUnavailable => -8
  | .SeekOutOfRange => -9
  | .SeekUnsupported => -10

/-- Byte sequence of an ASCII string: one byte per character. -/
def strBytes (s : String) : List Nat :=
  s.data.map (fun c => c.toNat)

/-- Modelled from the spec: every fallible operation records a
human-readable UTF-8 message on failure (spec 4.1 `record_error`); the
missing implementation's texts are unknown, so a fixed ASCII message per
error kind stands in.  All messages are ASCII, hence one UTF-8 byte per
character and all are non-empty. -/
def errMessage : YakoError → List Nat
  | .InvalidHandle => strBytes "invalid player handle"
  | .FileNotFound => strBytes "file not found"
  | .UnsupportedFormat => strBytes "unsupported container format"
  | .CorruptHeader => strBytes "corrupt container header"
  | .IoFailure => strBytes "io failure"
  | .NoFileOpen => strBytes "no file open"
  | .NotPlaying => strBytes "player is not playing"
  | .OutputDeviceUnavailable => strBytes "output device unavailable"
  | .SeekOutOfRange => strBytes "seek position out of range"
  | .SeekUnsupported => strBytes "seek unsupported by container"

/-- Modelled from the spec: thread-scoped last-error store, `message`
absent if no error / cleared (spec section 3, ErrorState).  The stored
value is the UTF-8 byte sequence of the message. -/
def ErrorState : Type := Option (List Nat)

/-- Modelled from the spec: `clear_last_error()` unconditionally empties
the calling thread's ErrorState (spec 4.1). -/
def clear_last_error (_ : ErrorState) : ErrorState := none

/-- Modelled from the spec: `record_error(text)` overwrites ErrorState for
the calling thread (spec 4.1). -/
def record_error (msg : List Nat) (_ : ErrorState) : ErrorState := some msg

/-- Modelled from the spec: `last_error_length()` returns the length in
UTF-8 code units of the current message, or 0 if none set (spec 4.1). -/
def last_error_length (e : ErrorState) : Int :=
  match e with
  | none => 0
  | some m => m.length

/-- Modelled from the spec: the negative sentinel `error_message_utf8`
returns when the capacity is insufficient (spec 4.1). -/
def insufficientCapacity : Int := -1

/-- Modelled from the spec: `error_message_utf8(buf, capacity)` writes the
full UTF-8 message into the caller's buffer and returns the byte count, or
returns the negative sentinel and writes nothing when `capacity` is
insufficient — all-or-nothing, never a truncated prefix (spec 4.1).  The
result models (bytes written into `buf`, return value). -/
def error_message_utf8 (e : ErrorState) (capacity : Nat) : List Nat × Int :=
  match e with
  | none => ([], 0)
  | some m => if m.length ≤ capacity then (m, (m.length : Int)) else ([], insufficientCapacity)

/-- Modelled from the spec: the metadata the extractor produces once at
open time — duration (`none` if unknown), an explicitly stored container
bitrate when present, the total encoded payload size used for the bitrate
estimate, the first embedded cover image when present, and whether the
container supports random access (spec 4.2, 4.3). -/
structure Metadata where
  duration_us : Option Nat
  bitrate_stored : Option Nat
  total_encoded_bytes : Nat
  cover : Option (List Nat)
  seekable : Bool
deriving DecidableEq

/-- Quotient rounded to the nearest integer, ties rounding up:
`roundNearest n d = ⌊n/d + 1/2⌋ = (2n + d) / (2d)` in natural division. -/
def roundNearest (n d : Nat) : Nat := (2 * n + d) / (2 * d)

/-- Modelled from the spec: bitrate determination at open time — prefer an
explicitly stored value; otherwise estimate as
`(total_encoded_bytes * 8) / duration_seconds` rounded to the nearest
integer (with `duration_seconds = duration_us / 10^6`); 0 if the duration
is also unknown (spec 4.2). -/
def computeBitrate (m : Metadata) : Nat :=
  match m.bitrate_stored with
  | some b => b
  | none =>
    match m.duration_us with
    | none => 0
    | some d => roundNearest (m.total_encoded_bytes * 8 * 1000000) d

/-- Modelled from the spec: the Player state (spec section 3).
`current_position_us` is kept as a `Nat` since the spec's invariant pins
it to `[0, duration_us]`; `duration_us` is `none` when unknown (the getter
renders the `-1` sentinel); `volume` is exact (`ℚ`). -/
structure YakoPlayer where
  fileOpen : Bool
  transport : TransportState
  duration_us : Option Nat
  bitrate_bps : Nat
  position_us : Nat
  volume : ℚ
  muted : Bool
  album_cover : Option (List Nat)
  seekable : Bool
deriving DecidableEq

/-- Modelled from the spec: `new()` allocates an inert Player — no file
open, Stopped state, default volume 1.0, not muted, no metadata
(spec section 6 and section 3 defaults). -/
def yako_player_new : YakoPlayer :=
  { fileOpen := false
    transport := .Stopped
    duration_us := none
    bitrate_bps := 0
    position_us := 0
    volume := 1
    muted := false
    album_cover := none
    seekable := true }

/-- Modelled from the spec: successful `open` — any prior session is
discarded, the state becomes Stopped, position resets to 0, and duration,
bitrate and album cover are (re)initialised from the Metadata Extractor
(spec 4.4 transition table row `any / open`, and spec section 8: open then
`get_current_time()` returns 0).  Volume and mute are caller settings,
untouched by open. -/
def openWith (p : YakoPlayer) (m : Metadata) : YakoPlayer :=
  { fileOpen := true
    transport := .Stopped
    duration_us := m.duration_us
    bitrate_bps := computeBitrate m
    position_us := 0
    volume := p.volume
    muted := p.muted
    album_cover := m.cover
    seekable := m.seekable }

/-- Modelled from the spec: `open(path)` — the external extraction
capability either yields Metadata or one of the open-time errors
(`FileNotFound`, `UnsupportedFormat`, `CorruptHeader`, `IoFailure`); its
outcome is a parameter here.  On failure the Player is unchanged. -/
def yako_player_open (p : YakoPlayer) (res : Except YakoError Metadata) :
    Except YakoError YakoPlayer :=
  match res with
  | .error e => .error e
  | .ok m => .ok (openWith p m)

/-- Modelled from the spec: `play()` fails with `NoFileOpen` when no file
is open, fails with `OutputDeviceUnavailable` when the external output
device cannot be acquired (outcome passed as a parameter), and otherwise
starts or resumes the loop from `current_position_us` (spec 4.4 rows
Stopped/Paused / play, spec section 8 state-machine property). -/
def yako_player_play (p : YakoPlayer) (deviceOk : Bool) :
    Except YakoError YakoPlayer :=
  if p.fileOpen = false then .error .NoFileOpen
  else if deviceOk = false then .error .OutputDeviceUnavailable
  else .ok { p with transport := .Playing }

/-- Modelled from the spec: `pause()` suspends a Playing loop with the
position frozen at the last delivered frame, and fails with `NotPlaying`
otherwise — in particular when Stopped (spec 4.4 row Playing / pause, spec
section 8 state-machine property). -/
def yako_player_pause (p : YakoPlayer) : Except YakoError YakoPlayer :=
  if p.transport = .Playing then .ok { p with transport := .Paused }
  else .error .NotPlaying

/-- Modelled from the spec: `stop()` tears down the loop, transitions to
Stopped and resets `current_position_us` to 0 (spec 4.4 row
Playing/Paused / stop); it has no failure mode on a valid handle. -/
def yako_player_stop (p : YakoPlayer) : Except YakoError YakoPlayer :=
  .ok { p with transport := .Stopped, position_us := 0 }

/-- Modelled from the spec: `seek(position_us)` — the Control Surface
validates that a file is open, rejects positions outside
`[0, duration_us]` with `SeekOutOfRange` before delegating (spec 4.3:
the caller clamps/checks the range before calling the pipeline; spec
section 8: out-of-range seek fails and leaves `current_position_us`
unchanged), rejects containers without random access with
`SeekUnsupported`, and otherwise repositions without changing the
transport state (spec 4.4 row seek). -/
def yako_player_seek (p : YakoPlayer) (t : Int) : Except YakoError YakoPlayer :=
  if p.fileOpen = false then .error .NoFileOpen
  else if t < 0 then .error .SeekOutOfRange
  else
    match p.duration_us with
    | some d =>
      if t > (d : Int) then .error .SeekOutOfRange
      else if p.seekable = false then .error .SeekUnsupported
      else .ok { p with position_us := t.toNat }
    | none =>
      if p.seekable = false then .error .SeekUnsupported
      else .ok { p with position_us := t.toNat }

/-- Clamp of a volume value into [0, 1]. -/
def clampVolume (v : ℚ) : ℚ := if v < 0 then 0 else if 1 < v then 1 else v

/-- Modelled from the spec: `set_volume(v)` clamps `v` into [0,1] and
stores it; no failure mode beyond an invalid handle (spec 4.4). -/
def yako_player_set_volume (p : YakoPlayer) (v : ℚ) : Except YakoError YakoPlayer :=
  .ok { p with volume := clampVolume v }

/-- Modelled from the spec: `set_mute(flag)` toggles a silence gate
independent of the stored `volume` value (spec 4.4); the flag is a
C `int32` with 0 meaning false. -/
def yako_player_set_mute (p : YakoPlayer) (m : Int) : Except YakoError YakoPlayer :=
  .ok { p with muted := m ≠ 0 }

/-- Modelled from the spec: `get_bitrate()` returns the bitrate determined
at open, 0 if unknown; no failure — an unopened Player returns 0
(spec section 6). -/
def yako_player_get_bitrate (p : YakoPlayer) : Nat := p.bitrate_bps

/-- Modelled from the spec: `get_duration()` returns the duration in
microseconds, or the `-1` sentinel when unknown/unopened (spec section 6). -/
def yako_player_get_duration (p : YakoPlayer) : Int :=
  match p.duration_us with
  | none => -1
  | some d => d

/-- Modelled from the spec: `get_current_time()` reads the playback clock
(spec section 6). -/
def yako_player_get_current_time (p : YakoPlayer) : Int := p.position_us

/-- Modelled from the spec: `is_playing()` reports
`transport_state == Playing` exactly, boolean encoded as int32
(spec 4.4). -/
def yako_player_is_playing (p : YakoPlayer) : Int :=
  if p.transport = .Playing then 1 else 0

/-- Modelled from the spec: `get_volume()` always returns the last
explicitly set (clamped) volume value regardless of mute state
(spec 4.4). -/
def yako_player_get_volume (p : YakoPlayer) : ℚ := p.volume

/-- Modelled from the spec: `get_album_cover()` returns the owned cover
bytes, or null (`none`) when absent (spec section 6). -/
def yako_player_get_album_cover (p : YakoPlayer) : Option (List Nat) :=
  p.album_cover

/-- Modelled from the spec: `get_album_cover_size()` returns the cover
buffer size, 0 if none (spec section 6). -/
def yako_player_get_album_cover_size (p : YakoPlayer) : Nat :=
  match p.album_cover with
  | none => 0
  | some b => b.length

/-- Modelled from the spec: the background loop advancing the playback
clock by the audio actually consumed — only while Playing; the stream is
finite, and on reaching the end the loop ends at the stream end with the
engine torn down (spec 4.3 End-of-Stream, 4.4 clock; when the duration is
known the clock never passes it, per the section 3 invariant). -/
def tickStep (δ : Nat) (p : YakoPlayer) : YakoPlayer :=
  if p.transport = .Playing then
    match p.duration_us with
    | some d =>
      if d ≤ p.position_us + δ then { p with position_us := d, transport := .Stopped }
      else { p with position_us := p.position_us + δ }
    | none => { p with position_us := p.position_us + δ }
  else p

/-- The state a calling thread observes: the Player it drives plus that
thread's ErrorState. -/
structure SysState where
  player : YakoPlayer
  err : ErrorState

/-- The operations of the control surface (with the outcomes of the
external capabilities — extraction result, device availability — as
parameters), the getters, and the background clock advance `tick`. -/
inductive Op where
  | openOp (res : Except YakoError Metadata)
  | play (deviceOk : Bool)
  | pauseOp
  | stopOp
  | seek (t : Int)
  | setVolume (v : ℚ)
  | setMute (m : Int)
  | getBitrate
  | getDuration
  | getCurrentTime
  | isPlaying
  | getVolume
  | getAlbumCover
  | getAlbumCoverSize
  | tick (δ : Nat)

/-- Modelled from the spec: a fallible operation's result routed through
the error channel — on failure the Player is untouched, the error message
is recorded in the calling thread's ErrorState and the negative code
returned; on success the ErrorState is untouched (last error persists
until overwritten or cleared) and 0 returned (spec sections 4.1 and 6). -/
def runPlayerOp (r : Except YakoError YakoPlayer) (s : SysState) : SysState × Int :=
  match r with
  | .ok p => ({ player := p, err := s.err }, 0)
  | .error e => ({ player := s.player, err := record_error (errMessage e) s.err }, errCode e)

/-- Modelled from the spec: one step of the system — control operations
run through the error channel, getters are reads returning status 0 (their
values are the pure functions above), `tick` is the background loop's
clock advance. -/
def step (op : Op) (s : SysState) : SysState × Int :=
  match op with
  | .openOp res => runPlayerOp (yako_player_open s.player res) s
  | .play deviceOk => runPlayerOp (yako_player_play s.player deviceOk) s
  | .pauseOp => runPlayerOp (yako_player_pause s.player) s
  | .stopOp => runPlayerOp (yako_player_stop s.player) s
  | .seek t => runPlayerOp (yako_player_seek s.player t) s
  | .setVolume v => runPlayerOp (yako_player_set_volume s.player v) s
  | .setMute m => runPlayerOp (yako_player_set_mute s.player m) s
  | .getBitrate => (s, 0)
  | .getDuration => (s, 0)
  | .getCurrentTime => (s, 0)
  | .isPlaying => (s, 0)
  | .getVolume => (s, 0)
  | .getAlbumCover => (s, 0)
  | .getAlbumCoverSize => (s, 0)
  | .tick δ => ({ player := tickStep δ s.player, err := s.err }, 0)

/-- Whether an operation is one of the seven getters. -/
def Op.isGetter : Op → Bool
  | .getBitrate => true
  | .getDuration => true
  | .getCurrentTime => true
  | .isPlaying => true
  | .getVolume => true
  | .getAlbumCover => true
  | .getAlbumCoverSize => true
  | _ => false

/-- The section 3 position invariant: whenever the duration is known, the
playback position does not pass it (the lower bound 0 is carried by the
`Nat` type of `position_us`). -/
def positionInv (p : YakoPlayer) : Prop :=
  ∀ d, p.duration_us = some d → p.position_us ≤ d

instance (p : YakoPlayer) : Decidable (positionInv p) := by
  unfold positionInv
  cases p.duration_us with
  | none => exact .isTrue (by intro d h; cases h)
  | some d =>
    cases Nat.decLe p.position_us d with
    | isTrue h => exact .isTrue (by intro x hx; cases hx; exact h)
    | isFalse h => exact .isFalse (by intro hall; exact h (hall d rfl))

/-- Running a sequence of operations, keeping only the resulting state. -/
def runOps (ops : List Op) (s : SysState) : SysState :=
  ops.foldl (fun t op => (step op t).1) s

/-- A sample extraction result: a 10-second stream with an explicitly
stored bitrate of 128000 bps and a 3-byte embedded cover. -/
def sampleMeta : Metadata :=
  { duration_us := some 10000000
    bitrate_stored := some 128000
    total_encoded_bytes := 160000
    cover := some [1, 2, 3]
    seekable := true }

/-- A sample extraction result with no stored bitrate, so the bitrate must
be estimated from the payload size and duration. -/
def estMeta : Metadata :=
  { duration_us := some 10000000
    bitrate_stored := none
    total_encoded_bytes := 160000
    cover := none
    seekable := true }

/-- A fresh system: new Player, no error recorded on the thread. -/
def initSys : SysState :=
  { player := yako_player_new, err := none }

/-- The system after a successful open of the sample stream. -/
def openedSys : SysState :=
  (step (.openOp (.ok sampleMeta)) initSys).1

/-- The system after open, a seek to 3000000 µs and a successful play:
Playing at position 3000000 of 10000000. -/
def playingSys : SysState :=
  (step (.play true) (step (.seek 3000000) openedSys).1).1

/-! ## Helper lemmas -/

theorem runPlayerOp_neg (r : Except YakoError YakoPlayer) (s : SysState)
    (h : (runPlayerOp r s).2 < 0) :
    ∃ e, r = .error e ∧
      runPlayerOp r s = ({ player := s.player, err := some (errMessage e) }, errCode e) := by
  cases r with
  | ok p => simp [runPlayerOp] at h
  | error e => exact ⟨e, rfl, rfl⟩

theorem step_neg (op : Op) (s : SysState) (h : (step op s).2 < 0) :
    ∃ e, step op s = ({ player := s.player, err := some (errMessage e) }, errCode e) := by
  cases op with
  | openOp res => obtain ⟨e, _, he⟩ := runPlayerOp_neg _ s h; exact ⟨e, he⟩
  | play dOk => obtain ⟨e, _, he⟩ := runPlayerOp_neg _ s h; exact ⟨e, he⟩
  | pauseOp => obtain ⟨e, _, he⟩ := runPlayerOp_neg _ s h; exact ⟨e, he⟩
  | stopOp => obtain ⟨e, _, he⟩ := runPlayerOp_neg _ s h; exact ⟨e, he⟩
  | seek t => obtain ⟨e, _, he⟩ := runPlayerOp_neg _ s h; exact ⟨e, he⟩
  | setVolume v => obtain ⟨e, _, he⟩ := runPlayerOp_neg _ s h; exact ⟨e, he⟩
  | setMute m => obtain ⟨e, _, he⟩ := runPlayerOp_neg _ s h; exact ⟨e, he⟩
  | getBitrate => simp [step] at h
  | getDuration => simp [step] at h
  | getCurrentTime => simp [step] at h
  | isPlaying => simp [step] at h
  | getVolume => simp [step] at h
  | getAlbumCover => simp [step] at h
  | getAlbumCoverSize => simp [step] at h
  | tick δ => simp [step] at h

theorem errMessage_ne_nil (e : YakoError) : errMessage e ≠ [] := by
  cases e <;> decide

/-- C1: for every failing operation — one whose status code is negative —
the calling thread's ErrorState afterwards holds a message of some UTF-8
byte length N > 0; `last_error_length` returns N; `error_message_utf8`
with capacity N writes exactly the N message bytes and returns N; with
capacity N-1 it returns the negative insufficient-capacity sentinel and
writes nothing; and after `clear_last_error`, `last_error_length`
returns 0. -/
theorem error_channel_two_step (op : Op) (s : SysState)
    (h : (step op s).2 < 0) :
    ∃ m : List Nat,
      (step op s).1.err = some m ∧
      0 < m.length ∧
      last_error_length (step op s).1.err = (m.length : Int) ∧
      error_message_utf8 (step op s).1.err m.length = (m, (m.length : Int)) ∧
      error_message_utf8 (step op s).1.err (m.length - 1) = ([], insufficientCapacity) ∧
      insufficientCapacity < 0 ∧
      last_error_length (clear_last_error (step op s).1.err) = 0 := by
  obtain ⟨e, he⟩ := step_neg op s h
  have hlen : 0 < (errMessage e).length :=
    Nat.pos_of_ne_zero (fun h0 => errMessage_ne_nil e (List.eq_nil_of_length_eq_zero h0))
  refine ⟨errMessage e, ?_, hlen, ?_, ?_, ?_, by decide, rfl⟩
  · rw [he]
  · rw [he]; rfl
  · rw [he]; simp [error_message_utf8]
  · rw [he]
    show error_message_utf8 (some (errMessage e)) ((errMessage e).length - 1) = _
    simp only [error_message_utf8]
    rw [if_neg (by omega)]

/-- Witness for C1: `play` on a fresh Player (no file open) fails, and the
two-step protocol holds for the recorded message. -/
theorem error_channel_two_step_witness :
    (step (.play true) initSys).2 < 0 ∧
    ∃ m : List Nat,
      (step (.play true) initSys).1.err = some m ∧
      0 < m.length ∧
      last_error_length (step (.play true) initSys).1.err = (m.length : Int) ∧
      error_message_utf8 (step (.play true) initSys).1.err m.length = (m, (m.length : Int)) ∧
      error_message_utf8 (step (.play true) initSys).1.err (m.length - 1) =
        ([], insufficientCapacity) ∧
      insufficientCapacity < 0 ∧
      last_error_length (clear_last_error (step (.play true) initSys).1.err) = 0 :=
  ⟨by decide, error_channel_two_step (.play true) initSys (by decide)⟩

theorem seek_beyond_end (s : SysState) (d : Nat) (t : Int)
    (hopen : s.player.fileOpen = true) (hdur : s.player.duration_us = some d)
    (ht : (d : Int) < t) :
    (step (.seek t) s).2 = errCode .SeekOutOfRange ∧
    (step (.seek t) s).1.player = s.player := by
  have hnn : ¬ t < 0 := by
    have h0 : (0 : Int) ≤ (d : Int) := Int.ofNat_nonneg d
    omega
  have hseek : yako_player_seek s.player t = .error .SeekOutOfRange := by
    unfold yako_player_seek
    rw [hopen, hdur]
    simp only [Bool.true_eq_false, if_false, if_neg hnn]
    rw [if_pos ht]
  exact ⟨by simp [step, runPlayerOp, hseek], by simp [step, runPlayerOp, hseek]⟩

/-- C2: on every opened Player with a known duration, a seek to a position
strictly greater than the duration fails with the `SeekOutOfRange` error
code and leaves `current_position_us` — indeed the whole Player state —
exactly as it was before the call. -/
theorem seek_out_of_range_state_unchanged (s : SysState) (d : Nat) (t : Int)
    (hopen : s.player.fileOpen = true)
    (hdur : s.player.duration_us = some d)
    (ht : (d : Int) < t) :
    (step (.seek t) s).2 = errCode .SeekOutOfRange ∧
    (step (.seek t) s).1.player.position_us = s.player.position_us ∧
    (step (.seek t) s).1.player = s.player :=
  ⟨(seek_beyond_end s d t hopen hdur ht).1,
   by rw [(seek_beyond_end s d t hopen hdur ht).2],
   (seek_beyond_end s d t hopen hdur ht).2⟩

/-- Witness for C2: seeking to 10000001 µs in the opened 10000000 µs
sample stream fails with `SeekOutOfRange` and changes nothing. -/
theorem seek_out_of_range_state_unchanged_witness :
    openedSys.player.fileOpen = true ∧
    openedSys.player.duration_us = some 10000000 ∧
    ((10000000 : Nat) : Int) < 10000001 ∧
    ((step (.seek 10000001) openedSys).2 = errCode .SeekOutOfRange ∧
     (step (.seek 10000001) openedSys).1.player.position_us =
       openedSys.player.position_us ∧
     (step (.seek 10000001) openedSys).1.player = openedSys.player) :=
  ⟨by decide, by decide, by decide,
   seek_out_of_range_state_unchanged openedSys 10000000 10000001
     (by decide) (by decide) (by decide)⟩

/-- Counterexample to C3 as stated: in the concrete Playing state at
position 3000000 µs of a 10000000 µs stream, a seek to 10000001 µs
(beyond the end) leaves the position at 3000000 — it is not clamped to
the duration — and the transport state stays Playing rather than
transitioning to Stopped: the model rejects the seek with
`SeekOutOfRange`. -/
theorem seek_beyond_end_no_clamp_counterexample :
    (step (.seek 10000001) playingSys).1.player.position_us = 3000000 ∧
    (step (.seek 10000001) playingSys).1.player.transport = .Playing ∧
    ¬ ((step (.seek 10000001) playingSys).1.player.position_us = 10000000 ∧
       (step (.seek 10000001) playingSys).1.player.transport = .Stopped) := by
  decide

/-- C3 (amended): whenever the duration is known, `current_position_us`
stays within [0, duration_us] after every operation (the lower bound is
carried by the `Nat` type of the position); but a seek requesting a
position strictly beyond the end does not clamp and does not stop: it
fails with `SeekOutOfRange` and leaves the Player — position and
transport state included — unchanged. -/
theorem position_invariant_preserved (op : Op) (s : SysState)
    (h : positionInv s.player) :
    positionInv (step op s).1.player ∧
    (∀ d t, s.player.fileOpen = true → s.player.duration_us = some d →
      (d : Int) < t →
      (step (.seek t) s).2 = errCode .SeekOutOfRange ∧
      (step (.seek t) s).1.player = s.player) := by
  refine ⟨?_, fun d t ho hd ht => seek_beyond_end s d t ho hd ht⟩
  cases op with
  | openOp res =>
    cases res with
    | error e => exact h
    | ok m => exact fun d _ => Nat.zero_le d
  | play dOk =>
    show positionInv (runPlayerOp (yako_player_play s.player dOk) s).1.player
    unfold yako_player_play
    split
    · exact h
    · split
      · exact h
      · exact fun d hd => h d hd
  | pauseOp =>
    show positionInv (runPlayerOp (yako_player_pause s.player) s).1.player
    unfold yako_player_pause
    split
    · exact fun d hd => h d hd
    · exact h
  | stopOp =>
    exact fun d _ => Nat.zero_le d
  | seek t =>
    show positionInv (runPlayerOp (yako_player_seek s.player t) s).1.player
    unfold yako_player_seek
    split
    · exact h
    · split
      · exact h
      · split
        next d' heq =>
          split
          next hgt => exact h
          next hgt =>
            split
            · exact h
            · intro d hd
              have hdd : d' = d := by
                rw [heq] at hd
                exact Option.some.inj hd
              subst hdd
              exact Int.toNat_le.mpr (not_lt.mp hgt)
        next heq =>
          split
          · exact h
          · intro d hd
            rw [heq] at hd
            cases hd
  | setVolume v => exact fun d hd => h d hd
  | setMute m => exact fun d hd => h d hd
  | getBitrate => exact h
  | getDuration => exact h
  | getCurrentTime => exact h
  | isPlaying => exact h
  | getVolume => exact h
  | getAlbumCover => exact h
  | getAlbumCoverSize => exact h
  | tick δ =>
    show positionInv (tickStep δ s.player)
    unfold tickStep
    split
    · split
      next d' heq =>
        split
        next hend =>
          intro d hd
          have hdd : d' = d := by
            rw [heq] at hd
            exact Option.some.inj hd
          subst hdd
          exact Nat.le_refl d'
        next hend =>
          intro d hd
          have hdd : d' = d := by
            rw [heq] at hd
            exact Option.some.inj hd
          subst hdd
          exact Nat.le_of_lt (Nat.lt_of_not_le hend)
      next heq =>
        intro d hd
        rw [heq] at hd
        cases hd
    · exact h

/-- Witness for C3 (amended): the Playing sample state satisfies the
position invariant, and it is preserved across a clock tick; the
out-of-range seek clause holds there too. -/
theorem position_invariant_preserved_witness :
    positionInv playingSys.player ∧
    (positionInv (step (.tick 500000) playingSys).1.player ∧
     (∀ d t, playingSys.player.fileOpen = true →
       playingSys.player.duration_us = some d →
       (d : Int) < t →
       (step (.seek t) playingSys).2 = errCode .SeekOutOfRange ∧
       (step (.seek t) playingSys).1.player = playingSys.player)) :=
  ⟨by decide, position_invariant_preserved (.tick 500000) playingSys (by decide)⟩

/-- C4: `play` on a Player with no file open fails with the `NoFileOpen`
error code, leaves the Player unchanged, and in particular a Stopped
transport state remains Stopped; `pause` on a Player in the Stopped state
fails with the `NotPlaying` error code and leaves the Player unchanged. -/
theorem play_no_file_pause_stopped (s : SysState) (dOk : Bool) :
    (s.player.fileOpen = false →
      (step (.play dOk) s).2 = errCode .NoFileOpen ∧
      (step (.play dOk) s).1.player = s.player ∧
      (s.player.transport = .Stopped →
        (step (.play dOk) s).1.player.transport = .Stopped)) ∧
    (s.player.transport = .Stopped →
      (step .pauseOp s).2 = errCode .NotPlaying ∧
      (step .pauseOp s).1.player = s.player) := by
  constructor
  · intro hnof
    have hplay : yako_player_play s.player dOk = .error .NoFileOpen := by
      unfold yako_player_play
      rw [if_pos hnof]
    refine ⟨?_, ?_, ?_⟩
    · show (runPlayerOp (yako_player_play s.player dOk) s).2 = _
      rw [hplay]
      rfl
    · show (runPlayerOp (yako_player_play s.player dOk) s).1.player = _
      rw [hplay]
      rfl
    · intro hst
      show (runPlayerOp (yako_player_play s.player dOk) s).1.player.transport = _
      rw [hplay]
      exact hst
  · intro hstop
    have hpause : yako_player_pause s.player = .error .NotPlaying := by
      unfold yako_player_pause
      rw [if_neg (by rw [hstop]; intro hc; cases hc)]
    constructor
    · show (runPlayerOp (yako_player_pause s.player) s).2 = _
      rw [hpause]
      rfl
    · show (runPlayerOp (yako_player_pause s.player) s).1.player = _
      rw [hpause]
      rfl

/-- Witness for C4: on a fresh Player (no file open, Stopped), `play`
fails with `NoFileOpen` leaving it Stopped, and `pause` fails with
`NotPlaying`. -/
theorem play_no_file_pause_stopped_witness :
    initSys.player.fileOpen = false ∧
    initSys.player.transport = .Stopped ∧
    ((initSys.player.fileOpen = false →
       (step (.play true) initSys).2 = errCode .NoFileOpen ∧
       (step (.play true) initSys).1.player = initSys.player ∧
       (initSys.player.transport = .Stopped →
         (step (.play true) initSys).1.player.transport = .Stopped)) ∧
     (initSys.player.transport = .Stopped →
       (step .pauseOp initSys).2 = errCode .NotPlaying ∧
       (step .pauseOp initSys).1.player = initSys.player)) :=
  ⟨by decide, by decide, play_no_file_pause_stopped initSys true⟩

theorem tickStep_paused (δ : Nat) (p : YakoPlayer)
    (h : p.transport = .Paused) : tickStep δ p = p := by
  unfold tickStep
  rw [if_neg (by rw [h]; intro hc; cases hc)]

theorem runOps_ticks_paused (δs : List Nat) (s : SysState)
    (h : s.player.transport = .Paused) :
    runOps (δs.map Op.tick) s = s := by
  induction δs generalizing s with
  | nil => rfl
  | cons δ δs ih =>
    show runOps (δs.map Op.tick) (step (.tick δ) s).1 = s
    have hstep : (step (.tick δ) s).1 = s := by
      show ({ player := tickStep δ s.player, err := s.err } : SysState) = s
      rw [tickStep_paused δ s.player h]
    rw [hstep]
    exact ih s h

/-- C5: from Playing or Paused, `stop` succeeds, transitions the
transport state to Stopped and resets `current_position_us` to 0, so a
subsequent `get_current_time` returns 0; `pause` from Playing freezes the
position: it is unchanged by the pause, and `get_current_time` keeps
returning the same value under any further background clock ticks. -/
theorem stop_resets_pause_freezes (s : SysState) (δs : List Nat) :
    ((s.player.transport = .Playing ∨ s.player.transport = .Paused) →
      (step .stopOp s).2 = 0 ∧
      (step .stopOp s).1.player.transport = .Stopped ∧
      (step .stopOp s).1.player.position_us = 0 ∧
      yako_player_get_current_time (step .stopOp s).1.player = 0) ∧
    (s.player.transport = .Playing →
      (step .pauseOp s).1.player.transport = .Paused ∧
      (step .pauseOp s).1.player.position_us = s.player.position_us ∧
      yako_player_get_current_time
          (runOps (δs.map Op.tick) (step .pauseOp s).1).player =
        yako_player_get_current_time s.player) := by
  constructor
  · intro _
    exact ⟨rfl, rfl, rfl, rfl⟩
  · intro hpl
    have hpause : yako_player_pause s.player =
        .ok { s.player with transport := .Paused } := by
      unfold yako_player_pause
      rw [if_pos hpl]
    have hstep : (step .pauseOp s).1 =
        { player := { s.player with transport := .Paused }, err := s.err } := by
      show (runPlayerOp (yako_player_pause s.player) s).1 = _
      rw [hpause]
      rfl
    refine ⟨?_, ?_, ?_⟩
    · rw [hstep]
    · rw [hstep]
    · rw [hstep, runOps_ticks_paused δs _ rfl]
      rfl

/-- Witness for C5: at the Playing sample state (position 3000000 µs),
stop resets everything and pause freezes the clock across ticks. -/
theorem stop_resets_pause_freezes_witness :
    (playingSys.player.transport = .Playing ∨
      playingSys.player.transport = .Paused) ∧
    playingSys.player.transport = .Playing ∧
    (((playingSys.player.transport = .Playing ∨
        playingSys.player.transport = .Paused) →
       (step .stopOp playingSys).2 = 0 ∧
       (step .stopOp playingSys).1.player.transport = .Stopped ∧
       (step .stopOp playingSys).1.player.position_us = 0 ∧
       yako_player_get_current_time (step .stopOp playingSys).1.player = 0) ∧
     (playingSys.player.transport = .Playing →
       (step .pauseOp playingSys).1.player.transport = .Paused ∧
       (step .pauseOp playingSys).1.player.position_us =
         playingSys.player.position_us ∧
       yako_player_get_current_time
           (runOps ([100, 200].map Op.tick) (step .pauseOp playingSys).1).player =
         yako_player_get_current_time playingSys.player)) :=
  ⟨Or.inl (by decide), by decide, stop_resets_pause_freezes playingSys [100, 200]⟩

/-- C6: `set_volume` clamps its argument into [0, 1]: setting -1.0 yields
a stored volume of 0.0, setting 5.0 yields 1.0, any value already in
[0, 1] is stored as given, and the default volume of a new Player is
1.0. -/
theorem set_volume_clamps (s : SysState) (v : ℚ) (h0 : 0 ≤ v) (h1 : v ≤ 1) :
    yako_player_get_volume (step (.setVolume (-1)) s).1.player = 0 ∧
    yako_player_get_volume (step (.setVolume 5) s).1.player = 1 ∧
    yako_player_get_volume (step (.setVolume v) s).1.player = v ∧
    yako_player_get_volume yako_player_new = 1 := by
  refine ⟨?_, ?_, ?_, rfl⟩
  · show clampVolume (-1) = 0
    decide
  · show clampVolume 5 = 1
    decide
  · show clampVolume v = v
    unfold clampVolume
    rw [if_neg (not_lt.mpr h0), if_neg (not_lt.mpr h1)]

/-- Witness for C6: setting the in-range volume 1 stores exactly 1, and
the clamping and default clauses hold at the fresh state. -/
theorem set_volume_clamps_witness :
    (0 : ℚ) ≤ 1 ∧ (1 : ℚ) ≤ 1 ∧
    (yako_player_get_volume (step (.setVolume (-1)) initSys).1.player = 0 ∧
     yako_player_get_volume (step (.setVolume 5) initSys).1.player = 1 ∧
     yako_player_get_volume (step (.setVolume 1) initSys).1.player = 1 ∧
     yako_player_get_volume yako_player_new = 1) :=
  ⟨by decide, by decide, set_volume_clamps initSys 1 (by decide) (by decide)⟩

theorem runOps_mutes_volume (ms : List Int) (s : SysState) :
    (runOps (ms.map Op.setMute) s).player.volume = s.player.volume := by
  induction ms generalizing s with
  | nil => rfl
  | cons m ms ih => exact (ih _).trans rfl

/-- C7: `set_mute` never changes the stored volume: after `set_volume(v)`,
any sequence of `set_mute` calls leaves `get_volume` at the value that was
set (clamped); in particular `set_volume(0.7)`, `set_mute(true)`,
`set_mute(false)` ends unmuted with `get_volume()` returning 0.7 — so
unmuting restores the prior volume rather than 1.0. -/
theorem set_mute_preserves_volume (s : SysState) (v : ℚ) (ms : List Int) :
    yako_player_get_volume
      (runOps (ms.map Op.setMute) (step (.setVolume v) s).1).player =
      clampVolume v ∧
    (∀ m, (step (.setMute m) s).1.player.volume = s.player.volume) ∧
    yako_player_get_volume
      (runOps [Op.setVolume 0.7, .setMute 1, .setMute 0] s).player = 0.7 ∧
    (runOps [Op.setVolume 0.7, .setMute 1, .setMute 0] s).player.muted = false := by
  refine ⟨?_, fun m => rfl, ?_, rfl⟩
  · exact runOps_mutes_volume ms _
  · show clampVolume 0.7 = 0.7
    norm_num [clampVolume]

theorem roundNearest_close (n d : Nat) (hd : 0 < d) :
    |(roundNearest n d : ℚ) - (n : ℚ) / (d : ℚ)| ≤ 1 / 2 := by
  have h2d : 0 < 2 * d := by omega
  have hmod := Nat.div_add_mod (2 * n + d) (2 * d)
  have hrlt : (2 * n + d) % (2 * d) < 2 * d := Nat.mod_lt _ h2d
  have key := congrArg (fun x : Nat => (x : ℚ)) hmod
  push_cast at key
  have hdq : (0 : ℚ) < d := by exact_mod_cast hd
  have hrq : (((2 * n + d) % (2 * d) : Nat) : ℚ) < 2 * d := by exact_mod_cast hrlt
  have hrq0 : (0 : ℚ) ≤ (((2 * n + d) % (2 * d) : Nat) : ℚ) := Nat.cast_nonneg _
  have h2dq : (0 : ℚ) < 2 * d := by linarith
  have hq : (roundNearest n d : ℚ) = (((2 * n + d) / (2 * d) : Nat) : ℚ) := rfl
  have hcancel : (n : ℚ) / d * (2 * d) = 2 * n := by
    field_simp
    ring
  rw [hq, abs_le]
  constructor
  · rw [← mul_le_mul_right h2dq, sub_mul, hcancel]
    linarith [key]
  · rw [← mul_le_mul_right h2dq, sub_mul, hcancel]
    linarith [key]

/-- C8: bitrate determination at open time — an explicitly stored
container bitrate is used as-is; otherwise the bitrate is
`(total_encoded_bytes * 8) / duration_seconds` rounded to the nearest
integer (the estimate differs from the exact quotient by at most 1/2);
when the duration is also unknown the bitrate is 0; and `get_bitrate` on
an unopened (fresh) Player returns 0. -/
theorem bitrate_determination (p : YakoPlayer) (m : Metadata) (d : Nat)
    (hd : 0 < d) :
    (∀ b, m.bitrate_stored = some b → (openWith p m).bitrate_bps = b) ∧
    (m.bitrate_stored = none → m.duration_us = some d →
      (openWith p m).bitrate_bps =
        roundNearest (m.total_encoded_bytes * 8 * 1000000) d ∧
      |((openWith p m).bitrate_bps : ℚ) -
          ((m.total_encoded_bytes : ℚ) * 8) / ((d : ℚ) / 1000000)| ≤ 1 / 2) ∧
    (m.bitrate_stored = none → m.duration_us = none →
      (openWith p m).bitrate_bps = 0) ∧
    yako_player_get_bitrate yako_player_new = 0 := by
  refine ⟨?_, ?_, ?_, rfl⟩
  · intro b hb
    show computeBitrate m = b
    unfold computeBitrate
    rw [hb]
  · intro hb hdur
    have hcb : (openWith p m).bitrate_bps =
        roundNearest (m.total_encoded_bytes * 8 * 1000000) d := by
      show computeBitrate m = _
      unfold computeBitrate
      rw [hb, hdur]
    refine ⟨hcb, ?_⟩
    rw [hcb]
    have hdq : (0 : ℚ) < d := by exact_mod_cast hd
    have e2 : ((m.total_encoded_bytes : ℚ) * 8) / ((d : ℚ) / 1000000) =
        ((m.total_encoded_bytes * 8 * 1000000 : Nat) : ℚ) / (d : ℚ) := by
      push_cast
      field_simp
    rw [e2]
    exact roundNearest_close _ d hd
  · intro hb hdur
    show computeBitrate m = 0
    unfold computeBitrate
    rw [hb, hdur]

/-- Witness for C8: opening the sample stream with no stored bitrate
(160000 encoded bytes over 10 seconds) estimates the bitrate, within 1/2
of the exact quotient 128000. -/
theorem bitrate_determination_witness :
    0 < 10000000 ∧
    ((∀ b, estMeta.bitrate_stored = some b →
       (openWith yako_player_new estMeta).bitrate_bps = b) ∧
     (estMeta.bitrate_stored = none → estMeta.duration_us = some 10000000 →
       (openWith yako_player_new estMeta).bitrate_bps =
         roundNearest (estMeta.total_encoded_bytes * 8 * 1000000) 10000000 ∧
       |((openWith yako_player_new estMeta).bitrate_bps : ℚ) -
           ((estMeta.total_encoded_bytes : ℚ) * 8) /
             ((10000000 : ℚ) / 1000000)| ≤ 1 / 2) ∧
     (estMeta.bitrate_stored = none → estMeta.duration_us = none →
       (openWith yako_player_new estMeta).bitrate_bps = 0) ∧
     yako_player_get_bitrate yako_player_new = 0) :=
  ⟨by decide, bitrate_determination yako_player_new estMeta 10000000 (by decide)⟩

/-- C9: every getter — bitrate, duration, current time, is-playing,
volume, album cover and album cover size — is a pure read: one step of
the getter leaves the whole system state (every Player field and the
calling thread's ErrorState) unchanged and returns status 0, never an
error code. -/
theorem getters_are_pure_reads (op : Op) (s : SysState)
    (h : op.isGetter = true) :
    step op s = (s, 0) := by
  cases op <;> first | rfl | simp [Op.isGetter] at h

/-- Witness for C9: reading the current time on the fresh system changes
nothing and returns status 0. -/
theorem getters_are_pure_reads_witness :
    Op.isGetter .getCurrentTime = true ∧
    step .getCurrentTime initSys = (initSys, 0) :=
  ⟨rfl, getters_are_pure_reads .getCurrentTime initSys rfl⟩

/-- C10: `get_album_cover` returns null (`none`) exactly when
`get_album_cover_size` returns 0 (covers, being extracted embedded
images, are never the empty byte string); when a cover is present the
returned buffer is exactly of the returned size; and the cover is
unchanged by every operation other than `open` (the destructor `free`
ends the handle's lifetime and is outside the state space). -/
theorem album_cover_protocol (s : SysState) (op : Op)
    (hwf : s.player.album_cover ≠ some ([] : List Nat)) :
    (yako_player_get_album_cover s.player = none ↔
      yako_player_get_album_cover_size s.player = 0) ∧
    (∀ b, s.player.album_cover = some b →
      yako_player_get_album_cover s.player = some b ∧
      yako_player_get_album_cover_size s.player = b.length) ∧
    ((∀ res, op ≠ .openOp res) →
      (step op s).1.player.album_cover = s.player.album_cover) := by
  refine ⟨?_, ?_, ?_⟩
  · cases hcov : s.player.album_cover with
    | none =>
      simp [yako_player_get_album_cover, yako_player_get_album_cover_size, hcov]
    | some b =>
      have hb : b ≠ [] := by
        intro hb0
        exact hwf (by rw [hcov, hb0])
      simp [yako_player_get_album_cover, yako_player_get_album_cover_size, hcov]
      intro h0
      exact hb h0
  · intro b hb
    constructor
    · show s.player.album_cover = some b
      exact hb
    · show yako_player_get_album_cover_size s.player = b.length
      unfold yako_player_get_album_cover_size
      rw [hb]
  · intro hne
    cases op with
    | openOp res => exact absurd rfl (hne res)
    | play dOk =>
      show (runPlayerOp (yako_player_play s.player dOk) s).1.player.album_cover = _
      unfold yako_player_play
      split
      · rfl
      · split
        · rfl
        · rfl
    | pauseOp =>
      show (runPlayerOp (yako_player_pause s.player) s).1.player.album_cover = _
      unfold yako_player_pause
      split
      · rfl
      · rfl
    | stopOp => rfl
    | seek t =>
      show (runPlayerOp (yako_player_seek s.player t) s).1.player.album_cover = _
      unfold yako_player_seek
      split
      · rfl
      · split
        · rfl
        · split
          · split
            · rfl
            · split
              · rfl
              · rfl
          · split
            · rfl
            · rfl
    | setVolume v => rfl
    | setMute m => rfl
    | getBitrate => rfl
    | getDuration => rfl
    | getCurrentTime => rfl
    | isPlaying => rfl
    | getVolume => rfl
    | getAlbumCover => rfl
    | getAlbumCoverSize => rfl
    | tick δ =>
      show (tickStep δ s.player).album_cover = _
      unfold tickStep
      split
      · split
        · split
          · rfl
          · rfl
        · rfl
      · rfl

/-- Witness for C10: the opened sample state has a 3-byte cover; the
null/size correspondence, the exact-size clause and invariance under
`stop` all hold there. -/
theorem album_cover_protocol_witness :
    openedSys.player.album_cover ≠ some ([] : List Nat) ∧
    ((yako_player_get_album_cover openedSys.player = none ↔
       yako_player_get_album_cover_size openedSys.player = 0) ∧
     (∀ b, openedSys.player.album_cover = some b →
       yako_player_get_album_cover openedSys.player = some b ∧
       yako_player_get_album_cover_size openedSys.player = b.length) ∧
     ((∀ res, Op.stopOp ≠ .openOp res) →
       (step .stopOp openedSys).1.player.album_cover =
         openedSys.player.album_cover)) :=
  ⟨by decide, album_cover_protocol openedSys .stopOp (by decide)⟩
